import Mathlib

/-!
Verification of the Bhashini demo client (`bhashini_api.py`, `language_utils.py`,
`utils.py`, `form_filler.py`, `app.py`).

The repository builds JSON payloads for a remote speech/translation pipeline API,
parses the JSON responses, maintains a language-code → script-code lookup, and
encodes/decodes audio as base64.  We embed those pieces shallowly:

* JSON values are the inductive `Json` below; Python dictionaries become
  association lists with last-write-wins insertion (`dictInsert`).
* A Python function that can raise becomes a Lean function into `Except PyErr _`.
* The HTTP layer is an oracle argument of type `HttpOutcome` describing what the
  single `requests.post` call did (network failure, or a status plus a JSON body);
  the repository code downstream of that call is translated literally.
* Mutation of the module-level `SCRIPT_MAP` (a `defaultdict`) is explicit state
  passing: lookups return the possibly-extended map.
-/

namespace Bhashini

/-- JSON values, as produced by `response.json()` and built by the payload
constructors.  Numbers in the repository's payloads are the integer literals
`16000` etc., so `num` carries a `Nat`. -/
inductive Json where
  | null
  | bool (b : Bool)
  | num (n : Nat)
  | str (s : String)
  | arr (xs : List Json)
  | obj (kvs : List (String × Json))

/-- Python truthiness (`if x:`) for the JSON values that occur here. -/
def truthy : Json → Bool
  | .null => false
  | .bool b => b
  | .num n => n != 0
  | .str s => s != ""
  | .arr xs => !xs.isEmpty
  | .obj kvs => !kvs.isEmpty

/-- Python exceptions that the translated code can raise. -/
inductive PyErr where
  | keyError (k : String)
  | indexError
  | typeError
  | attributeError
  | importError (name : String)
  | valueError (msg : String)
  | httpError (status : Nat)
  | requestException (msg : String)
  | exception (msg : String)
deriving Repr, DecidableEq

/-- `d[k]` on a Python dict: `KeyError` when missing, `TypeError` when the
value is not a dict at all. -/
def Json.getF : Json → String → Except PyErr Json
  | .obj kvs, k =>
      match kvs.lookup k with
      | some v => .ok v
      | none => .error (.keyError k)
  | _, _ => .error .typeError

/-- `d.get(k, default)` on a Python dict; `AttributeError` when not a dict. -/
def Json.getD : Json → String → Json → Except PyErr Json
  | .obj kvs, k, d => .ok ((kvs.lookup k).getD d)
  | _, _, _ => .error .attributeError

/-- `d.get(k)` on a Python dict (default `None` modelled as `Option`);
`AttributeError` when not a dict. -/
def Json.getOpt : Json → String → Except PyErr (Option Json)
  | .obj kvs, k => .ok (kvs.lookup k)
  | _, _ => .error .attributeError

/-- `xs[i]` on a Python list: `IndexError` out of range, `TypeError`/`KeyError`
shape mismatch when not a list. -/
def Json.getI : Json → Nat → Except PyErr Json
  | .arr xs, i =>
      match xs.get? i with
      | some v => .ok v
      | none => .error .indexError
  | _, _ => .error .typeError

/-- Navigation used only in theorem statements: follow a field name inside an
`Option Json`, `none` when absent or not an object. -/
def jfld (j : Option Json) (k : String) : Option Json :=
  match j with
  | some (.obj kvs) => kvs.lookup k
  | _ => none

/-- Navigation used only in theorem statements: index into an array inside an
`Option Json`, `none` when absent or not an array. -/
def jidx (j : Option Json) (i : Nat) : Option Json :=
  match j with
  | some (.arr xs) => xs.get? i
  | _ => none

/-- The `pipelineTasks` list of a payload, when it is an array. -/
def tasksOf (p : Json) : Option (List Json) :=
  match jfld (some p) "pipelineTasks" with
  | some (.arr ts) => some ts
  | _ => none

/-! ## Script maps (`SCRIPT_MAP`, `SCRIPT_CODES`)

`SCRIPT_MAP` is a `defaultdict(lambda: 'Latn')` updated once with the fetched
map; its keys that the repo ever looks up are strings, values arrive as JSON.
We represent such dicts as association lists with unique keys kept in insertion
order, the semantics of a Python dict. -/

abbrev ScriptMap := List (String × Json)

/-- `d[k] = v` on a Python dict: overwrite in place or append. -/
def dictInsert (m : ScriptMap) (k : String) (v : Json) : ScriptMap :=
  match m with
  | [] => [(k, v)]
  | (k', v') :: rest =>
      if k' = k then (k, v) :: rest else (k', v') :: dictInsert rest k v

/-- `SCRIPT_MAP.update(other)`: insert every pair of `other` in order. -/
def dictUpdate (m : ScriptMap) (other : ScriptMap) : ScriptMap :=
  other.foldl (fun acc kv => dictInsert acc kv.1 kv.2) m

/-- `bhashini_api.get_script_code`: `SCRIPT_MAP[language_code]` on a
`defaultdict(lambda: 'Latn')` — the stored value, else the default `'Latn'`.
(The `from language_utils import get_script_code` on line 10 is shadowed by
this later module-level `def`, so this is the lookup all builders use.) -/
def get_script_code (m : ScriptMap) (language_code : String) : Json :=
  match m.lookup language_code with
  | some v => v
  | none => .str "Latn"

/-- `defaultdict.__getitem__` also *inserts* the default on a miss: the state
of `SCRIPT_MAP` after evaluating `SCRIPT_MAP[language_code]`. -/
def script_map_after (m : ScriptMap) (language_code : String) : ScriptMap :=
  match m.lookup language_code with
  | some _ => m
  | none => m ++ [(language_code, .str "Latn")]

/-- The static `SCRIPT_CODES` table of `language_utils.py`. -/
def SCRIPT_CODES : List (String × String) :=
  [("as", "Beng"), ("bn", "Beng"), ("brx", "Deva"), ("doi", "Deva"),
   ("en", "Latn"), ("gu", "Gujr"), ("hi", "Deva"), ("kn", "Knda"),
   ("ks", "Arab"), ("kok", "Deva"), ("mai", "Deva"), ("ml", "Mlym"),
   ("mni", "Beng"), ("mr", "Deva"), ("ne", "Deva"), ("or", "Orya"),
   ("pa", "Guru"), ("sa", "Deva"), ("sat", "Olck"), ("sd", "Arab"),
   ("ta", "Taml"), ("te", "Telu"), ("ur", "Arab")]

/-- `language_utils.get_script_code`: `SCRIPT_CODES.get(lang_code, "Deva")`. -/
def language_utils.get_script_code (lang_code : String) : String :=
  match SCRIPT_CODES.lookup lang_code with
  | some v => v
  | none => "Deva"

/-! ## HTTP layer -/

/-- What a single `requests.post` call did: raised a `RequestException`
(connection failure etc.), or returned a response with a status code and a
JSON body. -/
inductive HttpOutcome where
  | netFail (msg : String)
  | resp (status : Nat) (body : Json)

/-- `bhashini_pipeline_request`: post the payload, `raise_for_status()`, and
return `response.json()`.  The outcome of the post is the oracle `o`. -/
def bhashini_pipeline_request (o : HttpOutcome) : Except PyErr Json :=
  match o with
  | .netFail m => .error (.requestException m)
  | .resp status body =>
      if 400 ≤ status then .error (.httpError status) else .ok body

/-- Number of HTTP requests `bhashini_pipeline_request` issues: always one. -/
def bhashini_pipeline_request_count : Nat := 1

/-! ## `fetch_supported_languages` -/

/-- Inner comprehension of `fetch_supported_languages`: the dict built by
iterating `data.get('pipelineModels', [])`, reading each pipeline's
`languages` list, and inserting `lang_code ↦ script_code` whenever both
`lang.get('sourceLanguage')` and `lang.get('sourceScriptCode')` are truthy.
Keys the repository ever looks up are strings, so only string keys are
stored; a non-string key could never be hit by the string lookups of
`get_script_code`, keeping the map extensionally faithful. -/
def languageMapOf (data : Json) : Except PyErr ScriptMap := do
  let pipelines ← data.getD "pipelineModels" (.arr [])
  match pipelines with
  | .arr ps =>
      ps.foldlM (fun acc p => do
        let langs ← p.getD "languages" (.arr [])
        match langs with
        | .arr ls =>
            ls.foldlM (fun acc2 lang => do
              let lc ← lang.getOpt "sourceLanguage"
              let sc ← lang.getOpt "sourceScriptCode"
              match lc, sc with
              | some lcv, some scv =>
                  if truthy lcv && truthy scv then
                    match lcv with
                    | .str k => pure (dictInsert acc2 k scv)
                    | _ => pure acc2
                  else pure acc2
              | _, _ => pure acc2) acc
        | _ => .error .typeError) []
  | _ => .error .typeError

/-- `fetch_supported_languages`: posts to the models endpoint; on any
`requests.RequestException` (network failure or an error status raised by
`raise_for_status`) it prints a warning and returns the **empty map** instead
of propagating the failure. -/
def fetch_supported_languages (o : HttpOutcome) : Except PyErr ScriptMap :=
  match o with
  | .netFail _ => .ok []
  | .resp status body =>
      if 400 ≤ status then .ok []
      else languageMapOf body

/-! ## Single-task payload builders -/

/-- Payload built by `bhashini_asr`. -/
def bhashini_asr_payload (audio_base64_string source_language : String) : Json :=
  .obj [("pipelineTasks", .arr [
      .obj [("taskType", .str "asr"),
            ("config", .obj [
              ("serviceId", .str "ai4bharat/conformer-hi-gpu--t4"),
              ("language", .obj [("sourceLanguage", .str source_language)]),
              ("audioFormat", .str "flac"),
              ("samplingRate", .num 16000)])]]),
    ("inputData", .obj [
      ("audio", .arr [.obj [("audioContent", .str audio_base64_string)]])])]

/-- Payload built by `bhashini_nmt`. -/
def bhashini_nmt_payload (text source_lang target_lang : String) : Json :=
  .obj [("pipelineTasks", .arr [
      .obj [("taskType", .str "translation"),
            ("config", .obj [
              ("serviceId", .str "ai4bharat/indictrans-v2-all-gpu--t4"),
              ("language", .obj [
                ("sourceLanguage", .str source_lang),
                ("targetLanguage", .str target_lang)])])]]),
    ("inputData", .obj [
      ("input", .arr [.obj [("source", .str text)]])])]

/-- Payload built by `bhashini_tts`; `gender` defaults to `"female"`. -/
def bhashini_tts_payload (text target_language : String)
    (gender : String := "female") : Json :=
  .obj [("pipelineTasks", .arr [
      .obj [("taskType", .str "tts"),
            ("config", .obj [
              ("serviceId", .str "ai4bharat/indic-tts-coqui-misc-gpu--t4"),
              ("language", .obj [("sourceLanguage", .str target_language)]),
              ("gender", .str gender)])]]),
    ("inputData", .obj [
      ("text", .arr [.obj [("source", .str text)]])])]

/-! ## Response parsers of the single-task wrappers

Each wrapper runs `for task in response.get('pipelineResponse', [])` and
returns the extraction from the first task whose `taskType` matches, raising
`Exception(...)` when the loop finishes without a match. -/

/-- `task['taskType'] == t` for an arbitrary JSON `taskType` value: Python
`==` of a string against anything is `False` unless it is that string. -/
def taskTypeIs (tt : Json) (t : String) : Bool :=
  match tt with
  | .str s => s == t
  | _ => false

/-- The loop body shared by the wrappers: scan for the first task whose
`task['taskType']` equals `t`, apply `extract` to it, raise `onFail` when no
task matches; reading `taskType` itself can raise. -/
def findTaskLoop (t : String) (extract : Json → Except PyErr α)
    (onFail : PyErr) : List Json → Except PyErr α
  | [] => .error onFail
  | task :: rest =>
      match task.getF "taskType" with
      | .error e => .error e
      | .ok tt =>
          if taskTypeIs tt t then extract task
          else findTaskLoop t extract onFail rest

/-- Scan of `response.get('pipelineResponse', [])` shared by the wrappers. -/
def scanResponse (response : Json) (t : String)
    (extract : Json → Except PyErr α) (onFail : PyErr) : Except PyErr α := do
  let tasks ← response.getD "pipelineResponse" (.arr [])
  match tasks with
  | .arr ts => findTaskLoop t extract onFail ts
  | _ => .error .typeError  -- iterating a non-list

/-- `task['output'][0]['source']` as in `bhashini_asr`. -/
def asr_extract (task : Json) : Except PyErr Json := do
  (← (← task.getF "output").getI 0).getF "source"

/-- `task['output'][0]['target']` as in `bhashini_nmt`. -/
def nmt_extract (task : Json) : Except PyErr Json := do
  (← (← task.getF "output").getI 0).getF "target"

/-- `task['output'][0].get('audioContent')` as in `bhashini_tts`. -/
def tts_extract (task : Json) : Except PyErr (Option Json) := do
  (← (← task.getF "output").getI 0).getOpt "audioContent"

/-- `bhashini_asr`'s parse of the response: first `asr` task's
`output[0]['source']`, else `Exception("ASR failed.")`. -/
def parse_asr_response (response : Json) : Except PyErr Json :=
  scanResponse response "asr" asr_extract (.exception "ASR failed.")

/-- `bhashini_nmt`'s parse of the response: first `translation` task's
`output[0]['target']`, else `Exception("Translation failed.")`. -/
def parse_nmt_response (response : Json) : Except PyErr Json :=
  scanResponse response "translation" nmt_extract
    (.exception "Translation failed.")

/-- `bhashini_tts`'s parse of the response: first `tts` task's
`output[0].get('audioContent')` (which may be `None`), else
`Exception("TTS failed.")`. -/
def parse_tts_response (response : Json) : Except PyErr (Option Json) :=
  scanResponse response "tts" tts_extract (.exception "TTS failed.")

/-- `bhashini_asr`: send `bhashini_asr_payload`, parse the JSON response. -/
def bhashini_asr (o : HttpOutcome) : Except PyErr Json :=
  bhashini_pipeline_request o >>= parse_asr_response

/-- `bhashini_nmt`: send `bhashini_nmt_payload`, parse the JSON response. -/
def bhashini_nmt (o : HttpOutcome) : Except PyErr Json :=
  bhashini_pipeline_request o >>= parse_nmt_response

/-- `bhashini_tts`: send `bhashini_tts_payload`, parse the JSON response; the
returned base64 content may be `None` when the task's output carries none. -/
def bhashini_tts (o : HttpOutcome) : Except PyErr (Option Json) :=
  bhashini_pipeline_request o >>= parse_tts_response

/-- Files written by a `bhashini_tts` call, given the HTTP outcome, the
`save_to_file` argument, and whether the pydub decode/export of the returned
audio succeeds (its failure is caught and only printed).  The export to
`"output_audio.mp3"` runs exactly when the parsed `audio_base64` is truthy
and `save_to_file` is set. -/
def bhashini_tts_writes (o : HttpOutcome) (save_to_file exportOk : Bool) :
    List String :=
  match bhashini_pipeline_request o >>= parse_tts_response with
  | .ok (some a) =>
      if truthy a && save_to_file && exportOk then ["output_audio.mp3"] else []
  | _ => []

/-! ## Composite pipeline builders -/

/-- Payload built by `bhashini_asr_nmt`, reading script codes from the current
`SCRIPT_MAP` state `m` via `get_script_code`. -/
def bhashini_asr_nmt_payload (m : ScriptMap)
    (audio_base64_string source_language_asr target_language_nmt : String) : Json :=
  .obj [("pipelineTasks", .arr [
      .obj [("taskType", .str "asr"),
            ("config", .obj [
              ("serviceId", .str "ai4bharat/conformer-hi-gpu--t4"),
              ("modelId", .str "648025f27cdd753e77f461a9"),
              ("language", .obj [
                ("sourceLanguage", .str source_language_asr),
                ("sourceScriptCode", get_script_code m source_language_asr)]),
              ("domain", .arr [.str "general"]),
              ("audioFormat", .str "wav"),
              ("samplingRate", .num 16000)])],
      .obj [("taskType", .str "translation"),
            ("config", .obj [
              ("serviceId", .str "ai4bharat/indictrans-v2-all-gpu--t4"),
              ("modelId", .str "641d1cd18ecee6735a1b372a"),
              ("language", .obj [
                ("sourceLanguage", .str source_language_asr),
                ("sourceScriptCode", get_script_code m source_language_asr),
                ("targetLanguage", .str target_language_nmt),
                ("targetScriptCode", get_script_code m target_language_nmt)])])]]),
    ("inputData", .obj [
      ("audio", .arr [.obj [("audioContent", .str audio_base64_string)]])])]

/-- Payload built by `bhashini_asr_nmt_tts_pipeline` *after* its same-language
guard has passed. -/
def bhashini_asr_nmt_tts_payload (m : ScriptMap)
    (audio_base64_string source_language_asr target_language_nmt_tts : String) : Json :=
  .obj [("pipelineTasks", .arr [
      .obj [("taskType", .str "asr"),
            ("config", .obj [
              ("serviceId", .str "ai4bharat/conformer-hi-gpu--t4"),
              ("modelId", .str "648025f27cdd753e77f461a9"),
              ("language", .obj [
                ("sourceLanguage", .str source_language_asr),
                ("sourceScriptCode", get_script_code m source_language_asr)]),
              ("domain", .arr [.str "general"]),
              ("audioFormat", .str "wav"),
              ("samplingRate", .num 16000)])],
      .obj [("taskType", .str "translation"),
            ("config", .obj [
              ("serviceId", .str "ai4bharat/indictrans-v2-all-gpu--t4"),
              ("modelId", .str "641d1cd18ecee6735a1b372a"),
              ("language", .obj [
                ("sourceLanguage", .str source_language_asr),
                ("sourceScriptCode", get_script_code m source_language_asr),
                ("targetLanguage", .str target_language_nmt_tts),
                ("targetScriptCode", get_script_code m target_language_nmt_tts)])])],
      .obj [("taskType", .str "tts"),
            ("config", .obj [
              ("serviceId", .str "ai4bharat/indic-tts-coqui-misc-gpu--t4"),
              ("modelId", .str "63f7384c2ff3ab138f88c64e"),
              ("language", .obj [
                ("sourceLanguage", .str target_language_nmt_tts),
                ("sourceScriptCode", get_script_code m target_language_nmt_tts)]),
              ("gender", .str "female")])]]),
    ("inputData", .obj [
      ("audio", .arr [.obj [("audioContent", .str audio_base64_string)]])])]

/-- The payload-construction phase of `bhashini_asr_nmt_tts_pipeline`:
`ValueError` when source and target languages coincide, the payload
otherwise. -/
def bhashini_asr_nmt_tts_pipeline_payload (m : ScriptMap)
    (audio_base64_string source_language_asr target_language_nmt_tts : String) :
    Except PyErr Json :=
  if source_language_asr = target_language_nmt_tts then
    .error (.valueError "Source and target languages must be different for translation.")
  else
    .ok (bhashini_asr_nmt_tts_payload m audio_base64_string
      source_language_asr target_language_nmt_tts)

/-- HTTP requests issued by `bhashini_asr_nmt`: exactly one, unconditionally. -/
def bhashini_asr_nmt_requests (m : ScriptMap) (audio src tgt : String) : List Json :=
  [bhashini_asr_nmt_payload m audio src tgt]

/-- HTTP requests issued by `bhashini_asr_nmt_tts_pipeline`: none when the
`ValueError` guard fires, one otherwise. -/
def bhashini_asr_nmt_tts_pipeline_requests (m : ScriptMap)
    (audio src tgt : String) : List Json :=
  if src = tgt then [] else [bhashini_asr_nmt_tts_payload m audio src tgt]

/-- Field `ks.head`, then deeper fields, of the `i`-th pipeline task of a
payload (statement-side navigation helper). -/
def taskField (p : Json) (i : Nat) (ks : List String) : Option Json :=
  ks.foldl jfld (jidx (jfld (some p) "pipelineTasks") i)

/-- Field `k` of a payload's `inputData` (statement-side navigation helper). -/
def inputField (p : Json) (k : String) : Option Json :=
  jfld (jfld (some p) "inputData") k

/-! ## `fetch_available_translation_pairs` (`language_utils.py`)

Its whole `try` block — request, `raise_for_status`, `.json()`, the set
comprehension and `sorted` — sits under a blanket `except Exception` that
prints and returns `[]`. -/

/-- Set comprehension of `fetch_available_translation_pairs`: the
`(sourceLanguage, targetLanguage)` pairs of `data.get("pipelineResponse", [])`
whose two `.get`-chains are truthy, in encounter order.  Python then passes
them through `set` and `sorted`, which only deduplicates and reorders the
pairs (or raises on unhashable/unorderable values — which the enclosing
blanket `except` turns into `[]` exactly like any failure modelled here). -/
def translation_pairs_of (data : Json) : Except PyErr (List (Json × Json)) := do
  let resp ← data.getD "pipelineResponse" (.arr [])
  match resp with
  | .arr items =>
      items.foldlM (fun acc item => do
        let cfg ← item.getD "config" (.obj [])
        let lang ← cfg.getD "language" (.obj [])
        let src ← lang.getOpt "sourceLanguage"
        let tgt ← lang.getOpt "targetLanguage"
        match src, tgt with
        | some s, some t =>
            if truthy s && truthy t then pure (acc ++ [(s, t)]) else pure acc
        | _, _ => pure acc) []
  | _ => .error .typeError

/-- `fetch_available_translation_pairs`: posts to the models endpoint; any
`Exception` — network failure, error status from `raise_for_status`, or a
failure while digesting the body — is caught, printed, and replaced by the
**empty list**.  The function never raises. -/
def fetch_available_translation_pairs (o : HttpOutcome) : List (Json × Json) :=
  match o with
  | .netFail _ => []
  | .resp status body =>
      if 400 ≤ status then []
      else
        match translation_pairs_of body with
        | .ok ps => ps
        | .error _ => []

/-! ## Process-wide module state (`HEADERS`, `SCRIPT_MAP`, the lru_cache) -/

/-- `HEADERS` as built once at module load from the environment values. -/
def HEADERS (ulca_user_id ulca_api_key bhashini_auth_token : String) :
    List (String × String) :=
  [("Content-Type", "application/json"), ("Accept", "*/*"),
   ("user_id", ulca_user_id), ("api-key", ulca_api_key),
   ("Authorization", bhashini_auth_token)]

/-- The process-wide mutable state after module load: `SCRIPT_MAP`, the
`HEADERS` dict, and the (initially empty) `lru_cache(maxsize=1)` slot of
`fetch_available_translation_pairs`. -/
structure ModuleState where
  script_map : ScriptMap
  headers : List (String × String)
  translation_pairs_cache : Option (List (Json × Json))

/-- The five user actions `app.py` dispatches on. -/
inductive UserAction where
  | textToSpeech
  | speechToText
  | textTranslation
  | speechToTextTranslation
  | speechToSpeech

/-- Module state after handling one user action with the given language
arguments.  `bhashini_tts`, `bhashini_asr` and `bhashini_nmt` touch no
module-level state; `bhashini_asr_nmt` evaluates `get_script_code` on
`src, src, tgt` (in payload order) and `bhashini_asr_nmt_tts_pipeline` on
`src, src, tgt, tgt` — unless its same-language guard raises first — each a
`defaultdict` access that may insert; no handler calls
`fetch_available_translation_pairs`, so its cache slot is never written. -/
def action_state_after (st : ModuleState) (a : UserAction)
    (src tgt : String) : ModuleState :=
  match a with
  | .textToSpeech => st
  | .speechToText => st
  | .textTranslation => st
  | .speechToTextTranslation =>
      { st with script_map :=
          script_map_after (script_map_after
            (script_map_after st.script_map src) src) tgt }
  | .speechToSpeech =>
      if src = tgt then st
      else
        { st with script_map :=
            script_map_after (script_map_after (script_map_after
              (script_map_after st.script_map src) src) tgt) tgt }

/-! ## Base64 (`base64.b64encode` / `base64.b64decode` as used in `utils.py`)

`recognize_speech_and_encode` returns
`base64.b64encode(wav_bytes).decode('utf-8')` and `play_audio_from_base64`
starts from `base64.b64decode(audio_base64_content)`.  We embed the standard
(RFC 4648) base64 the Python library implements, on byte strings represented
as lists of naturals below 256; the ASCII base64 text is likewise a list of
code points (its UTF-8 decoding is the identity on ASCII). -/

/-- The base64 alphabet as ASCII codes: `A–Z`, `a–z`, `0–9`, `+`, `/`. -/
def encChar (n : Nat) : Nat :=
  if n < 26 then 65 + n
  else if n < 52 then 97 + (n - 26)
  else if n < 62 then 48 + (n - 52)
  else if n = 62 then 43 else 47

/-- Inverse of the alphabet: sextet of an ASCII code, `none` off-alphabet. -/
def decChar (c : Nat) : Option Nat :=
  if 65 ≤ c ∧ c ≤ 90 then some (c - 65)
  else if 97 ≤ c ∧ c ≤ 122 then some (26 + (c - 97))
  else if 48 ≤ c ∧ c ≤ 57 then some (52 + (c - 48))
  else if c = 43 then some 62
  else if c = 47 then some 63
  else none

/-- `base64.b64encode`: three bytes become four alphabet characters; a final
group of one or two bytes is padded with `'='` (ASCII 61). -/
def b64encode : List Nat → List Nat
  | [] => []
  | [a] => [encChar (a / 4), encChar (a % 4 * 16), 61, 61]
  | [a, b] => [encChar (a / 4), encChar (a % 4 * 16 + b / 16),
               encChar (b % 16 * 4), 61]
  | a :: b :: c :: rest =>
      encChar (a / 4) :: encChar (a % 4 * 16 + b / 16) ::
      encChar (b % 16 * 4 + c / 64) :: encChar (c % 64) :: b64encode rest

/-- `base64.b64decode` on alphabet-only input: four characters become three
bytes; a final `"=="` or `"="` yields one or two bytes (excess bits of the
last sextet are discarded, as the Python decoder does); anything else —
including a length that is not a multiple of four — fails. -/
def b64decode : List Nat → Option (List Nat)
  | [] => some []
  | c0 :: c1 :: c2 :: c3 :: rest =>
      match decChar c0, decChar c1 with
      | some s0, some s1 =>
        if c2 = 61 ∧ c3 = 61 ∧ rest = [] then
          some [s0 * 4 + s1 / 16]
        else if c3 = 61 ∧ rest = [] then
          match decChar c2 with
          | some s2 => some [s0 * 4 + s1 / 16, s1 % 16 * 16 + s2 / 4]
          | none => none
        else
          match decChar c2, decChar c3 with
          | some s2, some s3 =>
              (b64decode rest).map fun bs =>
                (s0 * 4 + s1 / 16) :: (s1 % 16 * 16 + s2 / 4) ::
                (s2 % 4 * 64 + s3) :: bs
          | _, _ => none
      | _, _ => none
  | _ => none

/-- The encoding step of `recognize_speech_and_encode`: base64 of the
in-memory WAV bytes (the microphone capture itself is outside the model). -/
def recognize_speech_and_encode_of (wav_bytes : List Nat) : List Nat :=
  b64encode wav_bytes

/-- The decoding step of `play_audio_from_base64`: `base64.b64decode` of the
received content (the audio playback itself is outside the model). -/
def play_audio_decode (audio_base64_content : List Nat) : Option (List Nat) :=
  b64decode audio_base64_content

/-! ## Audio capture and playback with their exception handling (`utils.py`) -/

/-- What the microphone capture inside `recognize_speech_and_encode` did:
timed out (`sr.WaitTimeoutError`), failed some other way, or produced WAV
bytes. -/
inductive CaptureOutcome where
  | timeout
  | captureError (msg : String)
  | captured (wav_bytes : List Nat)

/-- `recognize_speech_and_encode`: on success the base64 of the in-memory WAV
bytes; a `WaitTimeoutError` or any other capture `Exception` is caught,
printed, and replaced by `None`.  The function never raises. -/
def recognize_speech_and_encode : CaptureOutcome → Except PyErr (Option (List Nat))
  | .timeout => .ok none
  | .captureError _ => .ok none
  | .captured wav_bytes => .ok (some (b64encode wav_bytes))

/-- Visible outcome of `play_audio_from_base64`: falsy input short-circuits
with a printed note, otherwise the audio either plays or the decode/playback
failure is caught and printed. -/
inductive PlayResult where
  | noContent
  | played (audio_bytes : List Nat)
  | errorPrinted

/-- `play_audio_from_base64`: empty (falsy) content returns after a print; a
base64 decode failure or a `soundfile`/`sounddevice` failure (the oracle
`playbackOk`) is caught by the blanket `except` and printed.  The function
never raises. -/
def play_audio_from_base64 (audio_base64_content : List Nat)
    (playbackOk : Bool) : Except PyErr PlayResult :=
  if audio_base64_content = [] then .ok .noContent
  else
    match b64decode audio_base64_content with
    | none => .ok .errorPrinted
    | some audio_bytes =>
        if playbackOk then .ok (.played audio_bytes) else .ok .errorPrinted

/-! ## `form_filler.py`'s import of `translate_text` -/

/-- The names bound at module level by `bhashini_api.py`, in source order. -/
def bhashini_api_names : List String :=
  ["ULCA_USER_ID", "ULCA_API_KEY", "BHASHINI_AUTH_TOKEN",
   "BHASHINI_PIPELINE_URL", "HEADERS", "SCRIPT_MAP",
   "fetch_supported_languages", "get_script_code",
   "bhashini_pipeline_request", "bhashini_asr", "bhashini_nmt",
   "bhashini_tts", "bhashini_asr_nmt", "bhashini_asr_nmt_tts_pipeline",
   "get_pipeline_config", "make_translation_pipeline_request"]

/-- `from bhashini_api import name`: succeeds iff `bhashini_api` binds the
name, raising `ImportError` otherwise (given that `bhashini_api` itself
loaded). -/
def import_from_bhashini_api (name : String) : Except PyErr String :=
  if name ∈ bhashini_api_names then .ok name else .error (.importError name)

/-- Loading `form_filler.py`: its line 2 is
`from bhashini_api import translate_text`, which must succeed before
`extract_entities` is defined. -/
def load_form_filler : Except PyErr (List String) := do
  let _ ← import_from_bhashini_api "translate_text"
  .ok ["ner", "extract_entities"]

/-! # Theorems -/

/-- C1: each single-task request builder constructs a payload with exactly one
`pipelineTask` whose fields match its arguments — `bhashini_nmt` a
`translation` task with `sourceLanguage`/`targetLanguage` from its arguments
and `inputData.input = [{"source": text}]`; `bhashini_tts` a `tts` task whose
`sourceLanguage` is its `target_language` argument and whose `gender` is its
`gender` argument, `"female"` by default; `bhashini_asr` an `asr` task whose
`sourceLanguage` is its `source_language` argument, with
`inputData.audio = [{"audioContent": audio_base64_string}]`. -/
theorem single_task_builders_build_matching_payload
    (text source_lang target_lang tts_text target_language gender
      audio_base64_string source_language : String) :
    (tasksOf (bhashini_nmt_payload text source_lang target_lang)).map List.length
        = some 1
    ∧ taskField (bhashini_nmt_payload text source_lang target_lang) 0
        ["taskType"] = some (.str "translation")
    ∧ taskField (bhashini_nmt_payload text source_lang target_lang) 0
        ["config", "language", "sourceLanguage"] = some (.str source_lang)
    ∧ taskField (bhashini_nmt_payload text source_lang target_lang) 0
        ["config", "language", "targetLanguage"] = some (.str target_lang)
    ∧ inputField (bhashini_nmt_payload text source_lang target_lang) "input"
        = some (.arr [.obj [("source", .str text)]])
    ∧ (tasksOf (bhashini_tts_payload tts_text target_language gender)).map
        List.length = some 1
    ∧ taskField (bhashini_tts_payload tts_text target_language gender) 0
        ["taskType"] = some (.str "tts")
    ∧ taskField (bhashini_tts_payload tts_text target_language gender) 0
        ["config", "language", "sourceLanguage"] = some (.str target_language)
    ∧ taskField (bhashini_tts_payload tts_text target_language gender) 0
        ["config", "gender"] = some (.str gender)
    ∧ taskField (bhashini_tts_payload tts_text target_language) 0
        ["config", "gender"] = some (.str "female")
    ∧ (tasksOf (bhashini_asr_payload audio_base64_string source_language)).map
        List.length = some 1
    ∧ taskField (bhashini_asr_payload audio_base64_string source_language) 0
        ["taskType"] = some (.str "asr")
    ∧ taskField (bhashini_asr_payload audio_base64_string source_language) 0
        ["config", "language", "sourceLanguage"] = some (.str source_language)
    ∧ inputField (bhashini_asr_payload audio_base64_string source_language)
        "audio" = some (.arr [.obj [("audioContent", .str audio_base64_string)]]) :=
  ⟨rfl, rfl, rfl, rfl, rfl, rfl, rfl, rfl, rfl, rfl, rfl, rfl, rfl, rfl⟩

/-- Helper: when no task's `taskType` equals `t`, the scan of the task list
ends in an error (the final `raise`, or a raise while reading a task's
`taskType`). -/
theorem findTaskLoop_error_of_no_match {α : Type} (t : String)
    (extract : Json → Except PyErr α) (onFail : PyErr) :
    ∀ ts : List Json, (∀ task ∈ ts, ¬task.getF "taskType" = .ok (.str t)) →
      ∃ e, findTaskLoop t extract onFail ts = .error e := by
  intro ts
  induction ts with
  | nil => exact fun _ => ⟨onFail, rfl⟩
  | cons task rest ih =>
      intro h
      cases htt : task.getF "taskType" with
      | error e => exact ⟨e, by simp [findTaskLoop, htt]⟩
      | ok tt =>
          have hne : taskTypeIs tt t = false := by
            cases tt with
            | str s =>
                have hs : ¬s = t := fun he =>
                  h task (List.mem_cons_self _ _) (by rw [htt, he])
                simp [taskTypeIs, hs]
            | null => rfl
            | bool b => rfl
            | num n => rfl
            | arr xs => rfl
            | obj kvs => rfl
          obtain ⟨e, he⟩ := ih fun u hu => h u (List.mem_cons_of_mem _ hu)
          exact ⟨e, by simp [findTaskLoop, htt, hne, he]⟩

/-- Helper: the scan returns the extraction of the first task whose
`taskType` equals `t`, skipping any prefix of tasks whose `taskType` reads
fine but differs. -/
theorem findTaskLoop_first_match {α : Type} (t : String)
    (extract : Json → Except PyErr α) (onFail : PyErr) :
    ∀ (pre : List Json) (task : Json) (rest : List Json),
      (∀ u ∈ pre, ∃ tt, u.getF "taskType" = .ok tt ∧ taskTypeIs tt t = false) →
      task.getF "taskType" = .ok (.str t) →
      findTaskLoop t extract onFail (pre ++ task :: rest) = extract task := by
  intro pre
  induction pre with
  | nil =>
      intro task rest _ htask
      simp [findTaskLoop, htask, taskTypeIs]
  | cons u pre' ih =>
      intro task rest hpre htask
      obtain ⟨tt, htt, hne⟩ := hpre u (List.mem_cons_self _ _)
      rw [List.cons_append]
      simp only [findTaskLoop, htt, hne]
      exact ih task rest (fun q hq => hpre q (List.mem_cons_of_mem _ hq)) htask

/-- C4: each single-task wrapper scans `pipelineResponse` for its task type:
when no task carries that type the parse raises; when a first matching task
is present and its `output[0]` field extracts, the wrapper returns exactly
that extraction (`source` for asr, `target` for translation, the possibly
missing `audioContent` for tts). -/
theorem single_task_wrappers_parse_first_task (ts pre rest : List Json)
    (taskA taskT taskS vA vT : Json) (ovS : Option Json) :
    ((∀ u ∈ ts, ¬u.getF "taskType" = .ok (.str "asr")) →
      ∃ e, parse_asr_response (.obj [("pipelineResponse", .arr ts)]) = .error e)
    ∧ ((∀ u ∈ pre, ∃ tt, u.getF "taskType" = .ok tt ∧ taskTypeIs tt "asr" = false) →
      taskA.getF "taskType" = .ok (.str "asr") →
      asr_extract taskA = .ok vA →
      parse_asr_response
        (.obj [("pipelineResponse", .arr (pre ++ taskA :: rest))]) = .ok vA)
    ∧ ((∀ u ∈ ts, ¬u.getF "taskType" = .ok (.str "translation")) →
      ∃ e, parse_nmt_response (.obj [("pipelineResponse", .arr ts)]) = .error e)
    ∧ ((∀ u ∈ pre, ∃ tt, u.getF "taskType" = .ok tt ∧ taskTypeIs tt "translation" = false) →
      taskT.getF "taskType" = .ok (.str "translation") →
      nmt_extract taskT = .ok vT →
      parse_nmt_response
        (.obj [("pipelineResponse", .arr (pre ++ taskT :: rest))]) = .ok vT)
    ∧ ((∀ u ∈ ts, ¬u.getF "taskType" = .ok (.str "tts")) →
      ∃ e, parse_tts_response (.obj [("pipelineResponse", .arr ts)]) = .error e)
    ∧ ((∀ u ∈ pre, ∃ tt, u.getF "taskType" = .ok tt ∧ taskTypeIs tt "tts" = false) →
      taskS.getF "taskType" = .ok (.str "tts") →
      tts_extract taskS = .ok ovS →
      parse_tts_response
        (.obj [("pipelineResponse", .arr (pre ++ taskS :: rest))]) = .ok ovS) :=
  ⟨fun h => findTaskLoop_error_of_no_match "asr" asr_extract
      (.exception "ASR failed.") ts h,
   fun hpre htask hex =>
     (findTaskLoop_first_match "asr" asr_extract (.exception "ASR failed.")
       pre taskA rest hpre htask).trans hex,
   fun h => findTaskLoop_error_of_no_match "translation" nmt_extract
      (.exception "Translation failed.") ts h,
   fun hpre htask hex =>
     (findTaskLoop_first_match "translation" nmt_extract
       (.exception "Translation failed.") pre taskT rest hpre htask).trans hex,
   fun h => findTaskLoop_error_of_no_match "tts" tts_extract
      (.exception "TTS failed.") ts h,
   fun hpre htask hex =>
     (findTaskLoop_first_match "tts" tts_extract (.exception "TTS failed.")
       pre taskS rest hpre htask).trans hex⟩

/-- Witness for C4: empty responses raise; singleton responses with a
well-formed matching task return its extraction. -/
theorem single_task_wrappers_parse_first_task_witness :
    (∃ e, parse_asr_response (.obj [("pipelineResponse", .arr [])]) = .error e)
    ∧ parse_asr_response (.obj [("pipelineResponse", .arr [.obj [
        ("taskType", .str "asr"),
        ("output", .arr [.obj [("source", .str "hello")]])]])])
      = .ok (.str "hello")
    ∧ (∃ e, parse_nmt_response (.obj [("pipelineResponse", .arr [])]) = .error e)
    ∧ parse_nmt_response (.obj [("pipelineResponse", .arr [.obj [
        ("taskType", .str "translation"),
        ("output", .arr [.obj [("target", .str "bonjour")]])]])])
      = .ok (.str "bonjour")
    ∧ (∃ e, parse_tts_response (.obj [("pipelineResponse", .arr [])]) = .error e)
    ∧ parse_tts_response (.obj [("pipelineResponse", .arr [.obj [
        ("taskType", .str "tts"),
        ("output", .arr [.obj [("audioContent", .str "UklGRg==")]])]])])
      = .ok (some (.str "UklGRg==")) :=
  ⟨(single_task_wrappers_parse_first_task [] [] []
      (.obj [("taskType", .str "asr"),
             ("output", .arr [.obj [("source", .str "hello")]])])
      (.obj [("taskType", .str "translation"),
             ("output", .arr [.obj [("target", .str "bonjour")]])])
      (.obj [("taskType", .str "tts"),
             ("output", .arr [.obj [("audioContent", .str "UklGRg==")]])])
      (.str "hello") (.str "bonjour") (some (.str "UklGRg=="))).1
      (by simp),
   (single_task_wrappers_parse_first_task [] [] []
      (.obj [("taskType", .str "asr"),
             ("output", .arr [.obj [("source", .str "hello")]])])
      (.obj [("taskType", .str "translation"),
             ("output", .arr [.obj [("target", .str "bonjour")]])])
      (.obj [("taskType", .str "tts"),
             ("output", .arr [.obj [("audioContent", .str "UklGRg==")]])])
      (.str "hello") (.str "bonjour") (some (.str "UklGRg=="))).2.1
      (by simp) rfl rfl,
   (single_task_wrappers_parse_first_task [] [] []
      (.obj [("taskType", .str "asr"),
             ("output", .arr [.obj [("source", .str "hello")]])])
      (.obj [("taskType", .str "translation"),
             ("output", .arr [.obj [("target", .str "bonjour")]])])
      (.obj [("taskType", .str "tts"),
             ("output", .arr [.obj [("audioContent", .str "UklGRg==")]])])
      (.str "hello") (.str "bonjour") (some (.str "UklGRg=="))).2.2.1
      (by simp),
   (single_task_wrappers_parse_first_task [] [] []
      (.obj [("taskType", .str "asr"),
             ("output", .arr [.obj [("source", .str "hello")]])])
      (.obj [("taskType", .str "translation"),
             ("output", .arr [.obj [("target", .str "bonjour")]])])
      (.obj [("taskType", .str "tts"),
             ("output", .arr [.obj [("audioContent", .str "UklGRg==")]])])
      (.str "hello") (.str "bonjour") (some (.str "UklGRg=="))).2.2.2.1
      (by simp) rfl rfl,
   (single_task_wrappers_parse_first_task [] [] []
      (.obj [("taskType", .str "asr"),
             ("output", .arr [.obj [("source", .str "hello")]])])
      (.obj [("taskType", .str "translation"),
             ("output", .arr [.obj [("target", .str "bonjour")]])])
      (.obj [("taskType", .str "tts"),
             ("output", .arr [.obj [("audioContent", .str "UklGRg==")]])])
      (.str "hello") (.str "bonjour") (some (.str "UklGRg=="))).2.2.2.2.1
      (by simp),
   (single_task_wrappers_parse_first_task [] [] []
      (.obj [("taskType", .str "asr"),
             ("output", .arr [.obj [("source", .str "hello")]])])
      (.obj [("taskType", .str "translation"),
             ("output", .arr [.obj [("target", .str "bonjour")]])])
      (.obj [("taskType", .str "tts"),
             ("output", .arr [.obj [("audioContent", .str "UklGRg==")]])])
      (.str "hello") (.str "bonjour") (some (.str "UklGRg=="))).2.2.2.2.2
      (by simp) rfl rfl⟩

/-- Helper: folding `++` over a list of strings with seed `"x"` yields a
string strictly longer than the sum of the lengths. -/
theorem length_foldr_append (l : List String) :
    (l.foldr (· ++ ·) "x").length = (l.map String.length).sum + 1 := by
  induction l with
  | nil => rfl
  | cons a t ih => simp [String.length_append, ih]; omega

/-- Helper: a key strictly longer than every key of an association list is
absent from it. -/
theorem lookup_eq_none_of_shorter {β : Type} (key : String) :
    ∀ m : List (String × β), (∀ p ∈ m, p.1.length < key.length) →
      List.lookup key m = none := by
  intro m
  induction m with
  | nil => intro _; rfl
  | cons p t ih =>
      intro h
      obtain ⟨k, v⟩ := p
      have hlen : k.length < key.length := h (k, v) (List.mem_cons_self _ _)
      have hne : (key == k) = false := by
        rw [beq_eq_false_iff_ne]
        intro he
        rw [he] at hlen
        omega
      simpa [List.lookup, hne] using ih fun q hq => h q (List.mem_cons_of_mem _ hq)

/-- C5 counterexample: the two `get_script_code` functions are *different*
lookups — on `"hi"`, with `SCRIPT_MAP` in the empty state a failed startup
fetch leaves it in, `bhashini_api.get_script_code` answers the defaultdict
default `"Latn"` while `language_utils.get_script_code` answers `"Deva"`
from its static table. -/
theorem script_code_lookups_disagree_on_hi :
    get_script_code [] "hi" = .str "Latn"
    ∧ language_utils.get_script_code "hi" = "Deva"
    ∧ Json.str "Latn" ≠ Json.str "Deva" :=
  ⟨rfl, rfl, by simp⟩

/-- C5 amended: each `get_script_code` is a total lookup — the mapped script
code when the key is present, its own fixed default otherwise (`"Latn"` for
the `SCRIPT_MAP` lookup of `bhashini_api`, `"Deva"` for the static table of
`language_utils`); the composite builders read their script codes from the
`bhashini_api` lookup, and for every state of `SCRIPT_MAP` some language
code makes the two lookups disagree, so they do *not* agree on every
input. -/
theorem get_script_code_total_lookup_but_lookups_differ (m : ScriptMap)
    (c : String) (v : Json) (w a src tgt : String) :
    (m.lookup c = some v → get_script_code m c = v)
    ∧ (m.lookup c = none → get_script_code m c = .str "Latn")
    ∧ (SCRIPT_CODES.lookup c = some w → language_utils.get_script_code c = w)
    ∧ (SCRIPT_CODES.lookup c = none → language_utils.get_script_code c = "Deva")
    ∧ taskField (bhashini_asr_nmt_payload m a src tgt) 0
        ["config", "language", "sourceScriptCode"] = some (get_script_code m src)
    ∧ taskField (bhashini_asr_nmt_tts_payload m a src tgt) 2
        ["config", "language", "sourceScriptCode"] = some (get_script_code m tgt)
    ∧ ∃ code, get_script_code m code ≠ .str (language_utils.get_script_code code) := by
  refine ⟨fun h => by simp [get_script_code, h],
          fun h => by simp [get_script_code, h],
          fun h => by simp [language_utils.get_script_code, h],
          fun h => by simp [language_utils.get_script_code, h],
          rfl, rfl, ?_⟩
  refine ⟨(m.map Prod.fst ++ SCRIPT_CODES.map Prod.fst).foldr (· ++ ·) "x", ?_⟩
  have hsum : ∀ s : String,
      s ∈ m.map Prod.fst ++ SCRIPT_CODES.map Prod.fst →
      s.length <
        ((m.map Prod.fst ++ SCRIPT_CODES.map Prod.fst).foldr (· ++ ·) "x").length := by
    intro s hs
    have hmem : s.length ∈
        ((m.map Prod.fst ++ SCRIPT_CODES.map Prod.fst).map String.length) :=
      List.mem_map_of_mem _ hs
    have hle := List.single_le_sum (fun x _ => Nat.zero_le x) _ hmem
    rw [length_foldr_append]
    omega
  have h1 : m.lookup ((m.map Prod.fst ++ SCRIPT_CODES.map Prod.fst).foldr (· ++ ·) "x")
      = none :=
    lookup_eq_none_of_shorter _ m fun p hp =>
      hsum p.1 (List.mem_append_left _ (List.mem_map_of_mem _ hp))
  have h2 : SCRIPT_CODES.lookup
      ((m.map Prod.fst ++ SCRIPT_CODES.map Prod.fst).foldr (· ++ ·) "x") = none :=
    lookup_eq_none_of_shorter _ SCRIPT_CODES fun p hp =>
      hsum p.1 (List.mem_append_right _ (List.mem_map_of_mem _ hp))
  have hg1 : get_script_code m
      ((m.map Prod.fst ++ SCRIPT_CODES.map Prod.fst).foldr (· ++ ·) "x")
      = .str "Latn" := by
    unfold get_script_code
    rw [h1]
  have hg2 : language_utils.get_script_code
      ((m.map Prod.fst ++ SCRIPT_CODES.map Prod.fst).foldr (· ++ ·) "x")
      = "Deva" := by
    unfold language_utils.get_script_code
    rw [h2]
  rw [hg1, hg2]
  simp

/-- Witness for the amended C5: both lookups evaluated on present keys. -/
theorem get_script_code_total_lookup_but_lookups_differ_witness :
    get_script_code [("hi", Json.str "Deva")] "hi" = Json.str "Deva"
    ∧ language_utils.get_script_code "hi" = "Deva" :=
  ⟨(get_script_code_total_lookup_but_lookups_differ [("hi", Json.str "Deva")]
      "hi" (Json.str "Deva") "Deva" "a" "en" "hi").1 rfl,
   (get_script_code_total_lookup_but_lookups_differ [("hi", Json.str "Deva")]
      "hi" (Json.str "Deva") "Deva" "a" "en" "hi").2.2.1 rfl⟩

/-- C6 counterexample: `bhashini_tts` called with `save_to_file=True` on a
response whose `tts` task carries audio content writes `output_audio.mp3` —
a file is created, so not every call is write-free. -/
theorem tts_save_to_file_writes_a_file :
    bhashini_tts_writes
      (.resp 200 (.obj [("pipelineResponse", .arr [.obj [
        ("taskType", .str "tts"),
        ("output", .arr [.obj [("audioContent", .str "UklGRg==")]])]])]))
      true true = ["output_audio.mp3"] := rfl

/-- C6 amended: with the default `save_to_file=False` — the only way the app
ever calls `bhashini_tts` — no call writes any file, whatever the HTTP
outcome and whatever the audio export would have done. -/
theorem tts_default_writes_nothing (o : HttpOutcome) (exportOk : Bool) :
    bhashini_tts_writes o false exportOk = [] := by
  unfold bhashini_tts_writes
  split
  · simp
  · rfl

/-- C7 counterexample: `SCRIPT_MAP` is **not** constant after module load —
`get_script_code` on a key absent from the map (here `"hi"` against the empty
map left by a failed startup fetch) makes the `defaultdict` insert the
default, so the dict after the call differs from the dict before. -/
theorem script_map_mutated_by_lookup :
    script_map_after [] "hi" = [("hi", Json.str "Latn")]
    ∧ ([("hi", Json.str "Latn")] : ScriptMap) ≠ [] :=
  ⟨rfl, by simp⟩

/-- Helper: the entry a `defaultdict` miss inserts maps the key to exactly
the value the lookup returns, so `get_script_code` answers identically on
the map before and after any earlier `get_script_code` call. -/
theorem get_script_code_after_stable (m : ScriptMap) (c c2 : String) :
    get_script_code (script_map_after m c) c2 = get_script_code m c2 := by
  unfold script_map_after
  cases hm : m.lookup c with
  | some v => rfl
  | none =>
      unfold get_script_code
      cases hc : c2 == c with
      | true =>
          have hceq : c2 = c := by simpa using hc
          subst hceq
          rw [List.lookup_append, hm]
          simp [List.lookup, hm]
      | false =>
          rw [List.lookup_append]
          have : List.lookup c2 [(c, Json.str "Latn")] = none := by
            simp [List.lookup, hc]
          rw [this]
          cases m.lookup c2 <;> rfl

/-- C7 amended: after module load the process-wide state is stable under
request handling up to the one `defaultdict` caveat — no user action of
`app.py` modifies `HEADERS`, none touches the `lru_cache` slot of
`fetch_available_translation_pairs` (it is never called by a handler), and
while the composite handlers' `get_script_code` calls may insert default
entries into `SCRIPT_MAP`, the map stays extensionally constant: every
lookup answers exactly as before the action. -/
theorem module_config_constant_during_request_handling (st : ModuleState)
    (a : UserAction) (src tgt c : String) :
    (action_state_after st a src tgt).headers = st.headers
    ∧ (action_state_after st a src tgt).translation_pairs_cache
        = st.translation_pairs_cache
    ∧ get_script_code (action_state_after st a src tgt).script_map c
        = get_script_code st.script_map c := by
  cases a with
  | textToSpeech => exact ⟨rfl, rfl, rfl⟩
  | speechToText => exact ⟨rfl, rfl, rfl⟩
  | textTranslation => exact ⟨rfl, rfl, rfl⟩
  | speechToTextTranslation =>
      exact ⟨rfl, rfl, by
        simp [action_state_after, get_script_code_after_stable]⟩
  | speechToSpeech =>
      by_cases h : src = tgt
      · exact ⟨by simp [action_state_after, h], by simp [action_state_after, h],
          by simp [action_state_after, h]⟩
      · exact ⟨by simp [action_state_after, h], by simp [action_state_after, h],
          by simp [action_state_after, h, get_script_code_after_stable]⟩

/-- C2 counterexample: the claim quantifies over *every* pair of language
codes, but on an equal pair the speech-to-speech pipeline raises `ValueError`
during its guard and constructs no `pipelineTasks` at all. -/
theorem tts_pipeline_builds_nothing_on_equal_languages :
    bhashini_asr_nmt_tts_pipeline_payload [] "audio" "hi" "hi"
      = .error (.valueError
          "Source and target languages must be different for translation.") := rfl

/-- C2 amended: for **every** audio input and pair of language codes,
`bhashini_asr_nmt` builds `[asr, translation]` in dispatch order with the
stated language fields and script codes via `get_script_code`; for every
equal pair the speech-to-speech pipeline raises `ValueError` and builds no
payload, and for every distinct pair it builds `[asr, translation, tts]`
with the asr and translation tasks' `sourceLanguage` equal to the source
argument, the translation task's `targetLanguage` and the tts task's
`sourceLanguage` equal to the target argument, and script codes obtained
via `get_script_code`. -/
theorem composite_builders_build_tasks_in_dispatch_order (m : ScriptMap)
    (audio src tgt : String) :
    (tasksOf (bhashini_asr_nmt_payload m audio src tgt)).map List.length = some 2
    ∧ taskField (bhashini_asr_nmt_payload m audio src tgt) 0 ["taskType"]
        = some (.str "asr")
    ∧ taskField (bhashini_asr_nmt_payload m audio src tgt) 1 ["taskType"]
        = some (.str "translation")
    ∧ taskField (bhashini_asr_nmt_payload m audio src tgt) 0
        ["config", "language", "sourceLanguage"] = some (.str src)
    ∧ taskField (bhashini_asr_nmt_payload m audio src tgt) 0
        ["config", "language", "sourceScriptCode"] = some (get_script_code m src)
    ∧ taskField (bhashini_asr_nmt_payload m audio src tgt) 1
        ["config", "language", "sourceLanguage"] = some (.str src)
    ∧ taskField (bhashini_asr_nmt_payload m audio src tgt) 1
        ["config", "language", "targetLanguage"] = some (.str tgt)
    ∧ taskField (bhashini_asr_nmt_payload m audio src tgt) 1
        ["config", "language", "targetScriptCode"] = some (get_script_code m tgt)
    ∧ (src = tgt →
        bhashini_asr_nmt_tts_pipeline_payload m audio src tgt
          = .error (.valueError
              "Source and target languages must be different for translation."))
    ∧ (src ≠ tgt →
        bhashini_asr_nmt_tts_pipeline_payload m audio src tgt
          = .ok (bhashini_asr_nmt_tts_payload m audio src tgt))
    ∧ (tasksOf (bhashini_asr_nmt_tts_payload m audio src tgt)).map List.length
        = some 3
    ∧ taskField (bhashini_asr_nmt_tts_payload m audio src tgt) 0 ["taskType"]
        = some (.str "asr")
    ∧ taskField (bhashini_asr_nmt_tts_payload m audio src tgt) 1 ["taskType"]
        = some (.str "translation")
    ∧ taskField (bhashini_asr_nmt_tts_payload m audio src tgt) 2 ["taskType"]
        = some (.str "tts")
    ∧ taskField (bhashini_asr_nmt_tts_payload m audio src tgt) 0
        ["config", "language", "sourceLanguage"] = some (.str src)
    ∧ taskField (bhashini_asr_nmt_tts_payload m audio src tgt) 1
        ["config", "language", "sourceLanguage"] = some (.str src)
    ∧ taskField (bhashini_asr_nmt_tts_payload m audio src tgt) 1
        ["config", "language", "targetLanguage"] = some (.str tgt)
    ∧ taskField (bhashini_asr_nmt_tts_payload m audio src tgt) 2
        ["config", "language", "sourceLanguage"] = some (.str tgt)
    ∧ taskField (bhashini_asr_nmt_tts_payload m audio src tgt) 2
        ["config", "language", "sourceScriptCode"]
        = some (get_script_code m tgt) := by
  refine ⟨rfl, rfl, rfl, rfl, rfl, rfl, rfl, rfl, fun h => ?_, fun h => ?_,
          rfl, rfl, rfl, rfl, rfl, rfl, rfl, rfl, rfl⟩
  · simp [bhashini_asr_nmt_tts_pipeline_payload, h]
  · simp [bhashini_asr_nmt_tts_pipeline_payload, h]

/-- Witness for the amended C2: the guard clause at the equal pair
`("hi", "hi")` and the build clause at the distinct pair `("en", "hi")`,
both on the empty script map. -/
theorem composite_builders_build_tasks_in_dispatch_order_witness :
    bhashini_asr_nmt_tts_pipeline_payload [] "a" "hi" "hi"
      = .error (.valueError
          "Source and target languages must be different for translation.")
    ∧ bhashini_asr_nmt_tts_pipeline_payload [] "a" "en" "hi"
      = .ok (bhashini_asr_nmt_tts_payload [] "a" "en" "hi") :=
  ⟨(composite_builders_build_tasks_in_dispatch_order [] "a" "hi"
      "hi").2.2.2.2.2.2.2.2.1 rfl,
   (composite_builders_build_tasks_in_dispatch_order [] "a" "en"
      "hi").2.2.2.2.2.2.2.2.2.1 (by decide)⟩

/-- C3 counterexample: `fetch_supported_languages` catches a network failure
of its request and returns the empty language map as a normal value — a
fallback is substituted, the failure does not propagate as an exception. -/
theorem fetch_supported_languages_swallows_failure :
    fetch_supported_languages (.netFail "connection refused") = .ok []
    ∧ (Except.ok ([] : ScriptMap) : Except PyErr ScriptMap)
        ≠ .error (.requestException "connection refused") :=
  ⟨rfl, by simp⟩

/-- C3 amended: HTTP failures (network failure or an error status) propagate
unhandled out of the single-task wrappers, and no request is ever retried
(every operation issues at most one request per call) — but the claim's
no-fallback clause fails beyond the pipeline wrappers:
`fetch_supported_languages` catches its request's failure and returns the
empty language map, `fetch_available_translation_pairs` catches any failure
and returns the empty pair list, `recognize_speech_and_encode` catches
audio-capture timeouts and errors and returns `None`, and
`play_audio_from_base64` catches decode/playback failures and returns
normally after printing. -/
theorem errors_propagate_without_retry_except_fetch (msg : String)
    (status : Nat) (b : Json) (m : ScriptMap) (audio src tgt : String)
    (hstatus : 400 ≤ status) :
    bhashini_asr (.netFail msg) = .error (.requestException msg)
    ∧ bhashini_asr (.resp status b) = .error (.httpError status)
    ∧ bhashini_nmt (.netFail msg) = .error (.requestException msg)
    ∧ bhashini_nmt (.resp status b) = .error (.httpError status)
    ∧ bhashini_tts (.netFail msg) = .error (.requestException msg)
    ∧ bhashini_tts (.resp status b) = .error (.httpError status)
    ∧ fetch_supported_languages (.netFail msg) = .ok []
    ∧ fetch_supported_languages (.resp status b) = .ok []
    ∧ bhashini_pipeline_request_count = 1
    ∧ (bhashini_asr_nmt_requests m audio src tgt).length = 1
    ∧ (bhashini_asr_nmt_tts_pipeline_requests m audio src tgt).length ≤ 1
    ∧ fetch_available_translation_pairs (.netFail msg) = []
    ∧ fetch_available_translation_pairs (.resp status b) = []
    ∧ recognize_speech_and_encode .timeout = .ok none
    ∧ recognize_speech_and_encode (.captureError msg) = .ok none
    ∧ (∀ (content : List Nat) (playbackOk : Bool),
        ∃ r, play_audio_from_base64 content playbackOk = .ok r) := by
  refine ⟨rfl, ?_, rfl, ?_, rfl, ?_, rfl, ?_, rfl, rfl, ?_, rfl, ?_, rfl,
    rfl, ?_⟩
  · simp [bhashini_asr, bhashini_pipeline_request, if_pos hstatus, Bind.bind,
      Except.bind]
  · simp [bhashini_nmt, bhashini_pipeline_request, if_pos hstatus, Bind.bind,
      Except.bind]
  · simp [bhashini_tts, bhashini_pipeline_request, if_pos hstatus, Bind.bind,
      Except.bind]
  · simp [fetch_supported_languages, if_pos hstatus]
  · unfold bhashini_asr_nmt_tts_pipeline_requests
    split <;> simp
  · simp [fetch_available_translation_pairs, if_pos hstatus]
  · intro content playbackOk
    unfold play_audio_from_base64
    split
    · exact ⟨.noContent, rfl⟩
    · cases b64decode content with
      | none => exact ⟨.errorPrinted, rfl⟩
      | some audio_bytes =>
          cases playbackOk with
          | true => exact ⟨.played audio_bytes, rfl⟩
          | false => exact ⟨.errorPrinted, rfl⟩

/-- Witness for the amended C3 at status `404`: the wrapper propagates the
HTTP error while both fetchers substitute their empty fallbacks. -/
theorem errors_propagate_without_retry_except_fetch_witness :
    bhashini_asr (.resp 404 .null) = .error (.httpError 404)
    ∧ fetch_supported_languages (.resp 404 .null) = .ok []
    ∧ fetch_available_translation_pairs (.resp 404 .null) = [] :=
  ⟨(errors_propagate_without_retry_except_fetch "boom" 404 .null [] "a" "en"
      "hi" (by decide)).2.1,
   (errors_propagate_without_retry_except_fetch "boom" 404 .null [] "a" "en"
      "hi" (by decide)).2.2.2.2.2.2.2.1,
   (errors_propagate_without_retry_except_fetch "boom" 404 .null [] "a" "en"
      "hi" (by decide)).2.2.2.2.2.2.2.2.2.2.2.2.1⟩

/-- Helper: decoding inverts the alphabet on every sextet. -/
theorem decChar_encChar : ∀ n < 64, decChar (encChar n) = some n := by decide

/-- Helper: no alphabet character is the padding character `'='` (61). -/
theorem encChar_ne_61 (n : Nat) : encChar n ≠ 61 := by
  unfold encChar
  split_ifs <;> omega

/-- Helper: `b64decode` inverts `b64encode` on byte strings, chunk by
chunk. -/
theorem b64decode_b64encode : ∀ bs : List Nat, (∀ b ∈ bs, b < 256) →
    b64decode (b64encode bs) = some bs
  | [], _ => rfl
  | [a], h => by
      have ha : a < 256 := h a (by simp)
      have h0 : decChar (encChar (a / 4)) = some (a / 4) :=
        decChar_encChar _ (by omega)
      have h1 : decChar (encChar (a % 4 * 16)) = some (a % 4 * 16) :=
        decChar_encChar _ (by omega)
      simp only [b64encode, b64decode, h0, h1]
      rw [if_pos (by simp)]
      have : a / 4 * 4 + a % 4 * 16 / 16 = a := by omega
      rw [this]
  | [a, b], h => by
      have ha : a < 256 := h a (by simp)
      have hb : b < 256 := h b (by simp)
      have h0 : decChar (encChar (a / 4)) = some (a / 4) :=
        decChar_encChar _ (by omega)
      have h1 : decChar (encChar (a % 4 * 16 + b / 16))
          = some (a % 4 * 16 + b / 16) := decChar_encChar _ (by omega)
      have h2 : decChar (encChar (b % 16 * 4)) = some (b % 16 * 4) :=
        decChar_encChar _ (by omega)
      simp only [b64encode, b64decode, h0, h1, h2]
      rw [if_neg (by simp [encChar_ne_61]), if_pos (by simp)]
      have e0 : a / 4 * 4 + (a % 4 * 16 + b / 16) / 16 = a := by omega
      have e1 : (a % 4 * 16 + b / 16) % 16 * 16 + b % 16 * 4 / 4 = b := by
        omega
      rw [e0, e1]
  | a :: b :: c :: rest, h => by
      have ha : a < 256 := h a (by simp)
      have hb : b < 256 := h b (by simp)
      have hc : c < 256 := h c (by simp)
      have h0 : decChar (encChar (a / 4)) = some (a / 4) :=
        decChar_encChar _ (by omega)
      have h1 : decChar (encChar (a % 4 * 16 + b / 16))
          = some (a % 4 * 16 + b / 16) := decChar_encChar _ (by omega)
      have h2 : decChar (encChar (b % 16 * 4 + c / 64))
          = some (b % 16 * 4 + c / 64) := decChar_encChar _ (by omega)
      have h3 : decChar (encChar (c % 64)) = some (c % 64) :=
        decChar_encChar _ (by omega)
      have ih : b64decode (b64encode rest) = some rest :=
        b64decode_b64encode rest fun x hx => h x (by simp [hx])
      simp only [b64encode, b64decode, h0, h1, h2, h3]
      rw [if_neg (by simp [encChar_ne_61]), if_neg (by simp [encChar_ne_61]),
          ih]
      have e0 : a / 4 * 4 + (a % 4 * 16 + b / 16) / 16 = a := by omega
      have e1 : (a % 4 * 16 + b / 16) % 16 * 16 + (b % 16 * 4 + c / 64) / 4
          = b := by omega
      have e2 : (b % 16 * 4 + c / 64) % 4 * 64 + c % 64 = c := by omega
      simp [e0, e1, e2]

/-- C8: base64 round-trips — decoding, as `play_audio_from_base64` does, the
base64 string `recognize_speech_and_encode` produced from a recorded WAV
byte string recovers exactly the original bytes. -/
theorem base64_audio_roundtrip (wav_bytes : List Nat)
    (h : ∀ b ∈ wav_bytes, b < 256) :
    play_audio_decode (recognize_speech_and_encode_of wav_bytes)
      = some wav_bytes :=
  b64decode_b64encode wav_bytes h

/-- Witness for C8 on the bytes `"RIFF"` followed by `0` and `255`. -/
theorem base64_audio_roundtrip_witness :
    (∀ b ∈ [82, 73, 70, 70, 0, 255], b < 256)
    ∧ play_audio_decode (recognize_speech_and_encode_of
        [82, 73, 70, 70, 0, 255]) = some [82, 73, 70, 70, 0, 255] :=
  ⟨by decide, base64_audio_roundtrip [82, 73, 70, 70, 0, 255] (by decide)⟩

/-- C9: `bhashini_asr_nmt_tts_pipeline` raises
`ValueError("Source and target languages must be different for translation.")`
and issues no HTTP request whenever its source and target language arguments
coincide, while `bhashini_asr_nmt` has no such guard and always issues its
one request. -/
theorem tts_pipeline_same_language_guard (m : ScriptMap)
    (audio src tgt : String) :
    (src = tgt →
      bhashini_asr_nmt_tts_pipeline_payload m audio src tgt
          = .error (.valueError
              "Source and target languages must be different for translation.")
      ∧ bhashini_asr_nmt_tts_pipeline_requests m audio src tgt = [])
    ∧ (bhashini_asr_nmt_requests m audio src tgt).length = 1 := by
  refine ⟨fun h => ?_, rfl⟩
  constructor
  · simp [bhashini_asr_nmt_tts_pipeline_payload, h]
  · simp [bhashini_asr_nmt_tts_pipeline_requests, h]

/-- Witness for C9 at `src = tgt = "hi"` on the empty script map. -/
theorem tts_pipeline_same_language_guard_witness :
    (bhashini_asr_nmt_tts_pipeline_payload [] "audio" "hi" "hi"
        = .error (.valueError
            "Source and target languages must be different for translation.")
      ∧ bhashini_asr_nmt_tts_pipeline_requests [] "audio" "hi" "hi" = [])
    ∧ (bhashini_asr_nmt_requests [] "audio" "hi" "hi").length = 1 :=
  ⟨(tts_pipeline_same_language_guard [] "audio" "hi" "hi").1 rfl,
   (tts_pipeline_same_language_guard [] "audio" "hi" "hi").2⟩

/-- C10: `bhashini_api.py` binds no name `translate_text`, so
`form_filler.py`'s `from bhashini_api import translate_text` raises
`ImportError` on every load and `extract_entities` is never defined. -/
theorem form_filler_import_always_fails :
    "translate_text" ∉ bhashini_api_names
    ∧ load_form_filler = .error (.importError "translate_text") :=
  ⟨by decide, rfl⟩

end Bhashini
